import Mathlib

/-!
Shallow embedding of the `powered` file-trigger relay (src/main.rs).

The program watches files with inotify, resolves each file's trimmed
content through a per-trigger value map, caches the resolved value with a
50 ms debounce, and on a value change dispatches the (trigger name, value)
pair over the configured actions, which write mapped output content to
glob-expanded paths.

Modelling choices:
* time is `Nat` milliseconds; a Rust `Instant` is a `Nat`, `elapsed()` at
  time `now` is `now - instant`;
* the filesystem read side is a function `Path → Except String String`
  (`.error` models an `io::Error` from `fs::read_to_string`);
* glob expansion and write success are oracles carried in a `World`;
* `eprintln!` reporting is modelled as an explicit log list so theorems
  can talk about what is reported;
* `Result<T>` is `Except String T`; the `?` operator is an explicit
  `match` that propagates `.error`.
-/

set_option autoImplicit false

namespace Powered

abbrev Path := String

/-- `struct Trigger` from main.rs: name, watched file, value map
(the `HashMap<String, String>` is an association list with unique keys). -/
structure Trigger where
  name : String
  file : Path
  map : List (String × String)
  deriving Repr, DecidableEq

/-- `enum Action` from main.rs, single variant `SimpleFile`. -/
inductive Action where
  | simpleFile (trigger : String) (file : String) (values : List (String × String))
  deriving Repr, DecidableEq

/-- `struct Config` from main.rs. -/
structure Config where
  action : List Action
  trigger : List Trigger
  deriving Repr, DecidableEq

/-- The environment the program runs against: file reads, glob expansion
and per-path write success. -/
structure World where
  files : Path → Except String String
  glob : String → Except String (List Path)
  writeOk : Path → Bool

/-- `Duration::from_millis(50)` in `poll_and_name`. -/
def debounceWindow : Nat := 50

/-- Rust `str::trim`: strip leading and trailing whitespace. Modelled
structurally over the character list so that the kernel can evaluate it. -/
def strTrim (s : String) : String :=
  ⟨((s.data.dropWhile Char.isWhitespace).reverse.dropWhile Char.isWhitespace).reverse⟩

/-- `struct TriggerHandler` from main.rs: the watched trigger, the debounce
timestamp `last_access` and the resolved-value cache `cached_val`. -/
structure TriggerHandler where
  trigger : Trigger
  last_access : Option Nat
  cached_val : Option String
  deriving Repr, DecidableEq

/-- The body of `TriggerHandler::poll_and_name` after the debounce guard:
read the file (propagating a read error), record the current time as
`last_access` unconditionally, resolve the trimmed content through the
trigger's map (warning on a miss), and return the resolved value exactly
when it differs from the cache, updating the cache in that case.
Result: `(returned value, trigger name, updated handler, warnings)`. -/
def TriggerHandler.readAndResolve (h : TriggerHandler) (now : Nat)
    (files : Path → Except String String) :
    Except String (Option String × String × TriggerHandler × List String) :=
  match files h.trigger.file with
  | .error e => .error e
  | .ok raw =>
    let h1 : TriggerHandler := { h with last_access := some now }
    let val := h1.trigger.map.lookup (strTrim raw)
    let warns :=
      if val.isNone then
        ["Warning: No value map for " ++ raw ++ " in trigger " ++ h1.trigger.name]
      else []
    if val ≠ h1.cached_val then
      let h2 : TriggerHandler := { h1 with cached_val := val }
      .ok (h2.cached_val, h2.trigger.name, h2, warns)
    else
      .ok (none, h1.trigger.name, h1, warns)

/-- `TriggerHandler::poll_and_name`: if a previous read exists and less
than the 50 ms debounce window has elapsed, return `(None, name)` without
touching the file or the state; otherwise read and resolve. -/
def TriggerHandler.poll_and_name (h : TriggerHandler) (now : Nat)
    (files : Path → Except String String) :
    Except String (Option String × String × TriggerHandler × List String) :=
  match h.last_access with
  | some instant =>
    if now - instant < debounceWindow then
      .ok (none, h.trigger.name, h, [])
    else
      h.readAndResolve now files
  | none => h.readAndResolve now files

/-- The write loop inside `Action::on_trigger`: for each glob-expanded
path, `fs::write(path, val)` with `?` on failure. Returns the writes
performed (path, content) in order, and `.error` as soon as one write
fails (remaining paths are skipped, exactly as the Rust `?` does). -/
def writeFiles (writeOk : Path → Bool) (val : String) :
    List Path → List (Path × String) × Except String Unit
  | [] => ([], .ok ())
  | p :: ps =>
    if writeOk p then
      let (ws, r) := writeFiles writeOk val ps
      ((p, val) :: ws, r)
    else
      ([], .error "Failed to write to simple-file on trigger")

/-- `Action::on_trigger`: skip silently when the trigger name differs;
otherwise look the value up in the action's own `values` map — on a miss
report (verbose only) and succeed with no writes; on a hit expand the glob
(propagating a glob error) and write the mapped content to every path.
Result: `(Result, writes performed, log lines)`. -/
def Action.on_trigger (a : Action) (w : World) (verbose : Bool)
    (t : String) (value : String) :
    Except String Unit × List (Path × String) × List String :=
  match a with
  | .simpleFile trigger file values =>
    if t ≠ trigger then (.ok (), [], [])
    else
      match values.lookup value with
      | some val =>
        match w.glob file with
        | .error e => (.error e, [], [])
        | .ok paths =>
          let (ws, r) := writeFiles w.writeOk val paths
          (r, ws, [])
      | none =>
        (.ok (), [], if verbose then ["Didn't find value for key " ++ value] else [])

/-- The loop body of `Config::on_trigger`: run each action in order with
`?`, so the first action that returns an error aborts the remaining ones. -/
def runActions (w : World) (verbose : Bool) (trig value : String) :
    List Action → Except String Unit × List (Path × String) × List String
  | [] => (.ok (), [], [])
  | a :: rest =>
    match a.on_trigger w verbose trig value with
    | (.error e, ws, ls) => (.error e, ws, ls)
    | (.ok _, ws, ls) =>
      let (r, ws', ls') := runActions w verbose trig value rest
      (r, ws ++ ws', ls ++ ls')

/-- `Config::on_trigger`: `for action in self.action.iter() \x7b
action.on_trigger(trig, value)?; \x7d`. -/
def Config.on_trigger (c : Config) (w : World) (verbose : Bool)
    (trig value : String) :
    Except String Unit × List (Path × String) × List String :=
  runActions w verbose trig value c.action

/-- `nix::sys::inotify::AddWatchFlags`, restricted to the two flags the
spec contrasts: read-access interest versus modification interest. -/
inductive AddWatchFlags where
  | IN_ACCESS
  | IN_MODIFY
  deriving Repr, DecidableEq

/-- The abstract inotify instance: a counter of watch descriptors and the
list of installed watches `(descriptor, path, flags)`. -/
structure Inotify where
  nextWd : Nat
  watches : List (Nat × Path × AddWatchFlags)
  deriving Repr, DecidableEq

/-- `Inotify::add_watch`: install a watch and return its descriptor. -/
def Inotify.add_watch (i : Inotify) (p : Path) (fl : AddWatchFlags) :
    Inotify × Nat :=
  ({ nextWd := i.nextWd + 1, watches := (i.nextWd, p, fl) :: i.watches }, i.nextWd)

/-- `TriggerHandler::new`: `inotify.add_watch(&trigger.file,
AddWatchFlags::IN_ACCESS)`, then a handler with `last_access: None` and
`cached_val: None`, returned together with the watch descriptor. -/
def TriggerHandler.new (trigger : Trigger) (ino : Inotify) :
    Inotify × TriggerHandler × Nat :=
  let (ino1, desc) := ino.add_watch trigger.file .IN_ACCESS
  (ino1, { trigger := trigger, last_access := none, cached_val := none }, desc)

/-- The `trigger_map: HashMap<WatchDescriptor, TriggerHandler>` of `main`,
as an association list from watch descriptor to handler. -/
abbrev Registry := List (Nat × TriggerHandler)

/-- `get_mut` followed by in-place mutation: replace the handler stored
under descriptor `wd`. -/
def updateRegistry (reg : Registry) (wd : Nat) (h : TriggerHandler) : Registry :=
  reg.map (fun p => if p.1 = wd then (wd, h) else p)

/-- One iteration of the inner `for ev in &events` loop of `main`: look the
event's watch descriptor up in the registry; if absent do nothing; if
present poll the handler — a poll error is propagated by `?` (so it leaves
the loop and aborts `main`); on a new value dispatch it through the config,
catching a dispatch error as a log line (`eprintln!("\x7be:#\x7d")`).
Result: `(updated registry, writes performed, log lines)`. -/
def processEvent (cfg : Config) (w : World) (verbose : Bool) (now : Nat)
    (reg : Registry) (wd : Nat) :
    Except String (Registry × List (Path × String) × List String) :=
  match reg.lookup wd with
  | none => .ok (reg, [], [])
  | some handler =>
    match handler.poll_and_name now w.files with
    | .error e => .error e
    | .ok (value, name, h1, warns) =>
      let reg1 := updateRegistry reg wd h1
      match value with
      | some val =>
        match cfg.on_trigger w verbose name val with
        | (.error e, ws, ls) => .ok (reg1, ws, warns ++ ls ++ [e])
        | (.ok _, ws, ls) => .ok (reg1, ws, warns ++ ls)
      | none => .ok (reg1, [], warns)

/-- The `if let Some(val) = value` block of the startup loop of `main`:
dispatch an initial value when there is one, catching a dispatch error as
a log line. Returns the writes performed and the log lines. -/
def dispatchInit (cfg : Config) (w : World) (verbose : Bool)
    (value : Option String) (name : String) :
    List (Path × String) × List String :=
  match value with
  | some val =>
    match cfg.on_trigger w verbose name val with
    | (.error e, ws, ls) => (ws, ls ++ [e])
    | (.ok _, ws, ls) => (ws, ls)
  | none => ([], [])

/-- The startup loop of `main` (`for trig in &cfg.trigger`): install a
watch for each trigger, run the initial poll (a poll error is propagated
by `?` and is fatal), dispatch an initial value if any (catching dispatch
errors as log lines), and insert `(watch, handler)` into the registry. -/
def setupTriggers (cfg : Config) (w : World) (verbose : Bool) (now : Nat) :
    List Trigger → Inotify →
    Except String (Inotify × Registry × List (Path × String) × List String)
  | [], ino => .ok (ino, [], [], [])
  | trig :: rest, ino =>
    let (ino1, handler, watch) := TriggerHandler.new trig ino
    match handler.poll_and_name now w.files with
    | .error e => .error e
    | .ok (value, name, h1, warns) =>
      let d := dispatchInit cfg w verbose value name
      match setupTriggers cfg w verbose now rest ino1 with
      | .error e => .error e
      | .ok (ino2, reg, ws', ls') =>
        .ok (ino2, (watch, h1) :: reg, d.1 ++ ws', warns ++ d.2 ++ ls')

/-! ### Helper lemmas -/

/-- The debounce guard of `poll_and_name` lets the poll through: either no
previous read is recorded, or at least the debounce window has elapsed. -/
def DebouncePasses (h : TriggerHandler) (now : Nat) : Prop :=
  ∀ t, h.last_access = some t → debounceWindow ≤ now - t

theorem poll_of_passes (h : TriggerHandler) (now : Nat)
    (fs : Path → Except String String) (hd : DebouncePasses h now) :
    h.poll_and_name now fs = h.readAndResolve now fs := by
  unfold TriggerHandler.poll_and_name
  cases hl : h.last_access with
  | none => rfl
  | some t =>
    have ht : ¬ (now - t < debounceWindow) := Nat.not_lt.mpr (hd t hl)
    simp [ht]

theorem poll_of_suppressed (h : TriggerHandler) (now t : Nat)
    (fs : Path → Except String String) (hl : h.last_access = some t)
    (hlt : now - t < debounceWindow) :
    h.poll_and_name now fs = .ok (none, h.trigger.name, h, []) := by
  unfold TriggerHandler.poll_and_name
  rw [hl]
  simp [hlt]

/-- Full characterisation of `readAndResolve` on a successful read: the
returned value is the resolved value when it differs from the cache and
`none` otherwise, the handler records `last_access := now` and caches the
resolved value, and a warning is emitted exactly on a mapping miss. -/
theorem readAndResolve_ok (h : TriggerHandler) (now : Nat)
    (fs : Path → Except String String) (raw : String)
    (hr : fs h.trigger.file = .ok raw) :
    h.readAndResolve now fs =
      .ok ((if h.trigger.map.lookup (strTrim raw) = h.cached_val then none
            else h.trigger.map.lookup (strTrim raw)),
        h.trigger.name,
        { h with last_access := some now,
                 cached_val := h.trigger.map.lookup (strTrim raw) },
        if (h.trigger.map.lookup (strTrim raw)).isNone then
          ["Warning: No value map for " ++ raw ++ " in trigger " ++ h.trigger.name]
        else []) := by
  unfold TriggerHandler.readAndResolve
  rw [hr]
  by_cases hv : h.trigger.map.lookup (strTrim raw) = h.cached_val
  · simp only [hv, ne_eq, not_true_eq_false, if_neg, ite_false, if_false]
    simp [hv.symm]
  · simp only [ne_eq, hv, not_false_eq_true, if_true, ite_true]
    simp

theorem readAndResolve_error (h : TriggerHandler) (now : Nat)
    (fs : Path → Except String String) (e : String)
    (hr : fs h.trigger.file = .error e) :
    h.readAndResolve now fs = .error e := by
  unfold TriggerHandler.readAndResolve
  rw [hr]

theorem readAndResolve_ok_trigger_eq (h : TriggerHandler) (now : Nat)
    (fs : Path → Except String String) (ret : Option String) (name : String)
    (h1 : TriggerHandler) (warns : List String)
    (hp : h.readAndResolve now fs = .ok (ret, name, h1, warns)) :
    h1.trigger = h.trigger := by
  cases hf : fs h.trigger.file with
  | error e =>
    rw [readAndResolve_error h now fs e hf] at hp
    exact Except.noConfusion hp
  | ok raw =>
    rw [readAndResolve_ok h now fs raw hf] at hp
    injection hp with h3
    simp only [Prod.mk.injEq] at h3
    exact h3.2.2.1 ▸ rfl

theorem poll_ok_trigger_eq (h : TriggerHandler) (now : Nat)
    (fs : Path → Except String String) (ret : Option String) (name : String)
    (h1 : TriggerHandler) (warns : List String)
    (hp : h.poll_and_name now fs = .ok (ret, name, h1, warns)) :
    h1.trigger = h.trigger := by
  unfold TriggerHandler.poll_and_name at hp
  cases hl : h.last_access with
  | none =>
    simp only [hl] at hp
    exact readAndResolve_ok_trigger_eq h now fs ret name h1 warns hp
  | some t =>
    simp only [hl] at hp
    by_cases hlt : now - t < debounceWindow
    · rw [if_pos hlt] at hp
      injection hp with h3
      simp only [Prod.mk.injEq] at h3
      exact h3.2.2.1 ▸ rfl
    · rw [if_neg hlt] at hp
      exact readAndResolve_ok_trigger_eq h now fs ret name h1 warns hp

/-- Through the whole startup loop, every watch already installed stays
installed, and every registry entry's watch descriptor is installed with
read-access interest on that handler's trigger file. -/
theorem setupTriggers_reg_access (cfg : Config) (w : World) (verbose : Bool)
    (now : Nat) (trigs : List Trigger) :
    ∀ (ino ino' : Inotify) (reg : Registry) (ws : List (Path × String))
      (ls : List String),
      setupTriggers cfg w verbose now trigs ino = .ok (ino', reg, ws, ls) →
      (∀ x ∈ ino.watches, x ∈ ino'.watches) ∧
      (∀ wd th, (wd, th) ∈ reg →
        (wd, th.trigger.file, AddWatchFlags.IN_ACCESS) ∈ ino'.watches) := by
  induction trigs with
  | nil =>
    intro ino ino' reg ws ls hs
    unfold setupTriggers at hs
    injection hs with h3
    simp only [Prod.mk.injEq] at h3
    obtain ⟨h4, h5, -, -⟩ := h3
    subst h4
    subst h5
    exact ⟨fun x hx => hx, fun wd th hm => absurd hm (List.not_mem_nil _)⟩
  | cons trig rest ih =>
    intro ino ino' reg ws ls hs
    unfold setupTriggers at hs
    simp only [TriggerHandler.new, Inotify.add_watch] at hs
    split at hs
    · exact Except.noConfusion hs
    · rename_i value name h1 warns hp
      split at hs
      · exact Except.noConfusion hs
      · rename_i ino2 reg2 ws2 ls2 hsetup
        injection hs with h3
        simp only [Prod.mk.injEq] at h3
        obtain ⟨hino, hreg, -, -⟩ := h3
        subst hino
        subst hreg
        have ihres := ih _ _ _ _ _ hsetup
        have htrig : h1.trigger = trig :=
          poll_ok_trigger_eq _ now w.files value name h1 warns hp
        constructor
        · intro x hx
          exact ihres.1 x (List.mem_cons_of_mem _ hx)
        · intro wd th hm
          rcases List.mem_cons.mp hm with hhd | htl
          · injection hhd with hwd hth
            subst hwd
            subst hth
            rw [htrig]
            exact ihres.1 _ (List.mem_cons_self _ _)
          · exact ihres.2 wd th htl

/-! ### Concrete fixtures for counterexamples and witnesses -/

def trigF : Trigger :=
  { name := "tf", file := "/f", map := [("on", "active"), ("off", "idle")] }

def inoF : Inotify := { nextWd := 0, watches := [] }

def fsOn : Path → Except String String := fun _ => .ok "on"

def fsJunk : Path → Except String String := fun _ => .ok "junk"

def trigC1 : Trigger := { name := "t1", file := "/tmp/status", map := [("on", "active")] }

def hC1 : TriggerHandler := { trigger := trigC1, last_access := none, cached_val := none }

def cfgC1 : Config := { action := [], trigger := [trigC1] }

def worldC1 : World :=
  { files := fun _ => .error "read failed", glob := fun _ => .ok [],
    writeOk := fun _ => true }

def trigC2 : Trigger := { name := "t2", file := "/tmp/c2", map := [("on", "active")] }

def hC2 : TriggerHandler :=
  { trigger := trigC2, last_access := none, cached_val := some "active" }

def fsC2 : Path → Except String String := fun _ => .ok "off"

def trigC3 : Trigger := { name := "t3", file := "/tmp/c3", map := [("1", "one")] }

def hC3 : TriggerHandler :=
  { trigger := trigC3, last_access := some 0, cached_val := some "one" }

def fsC3 : Path → Except String String := fun _ => .ok "2"

def actC4a : Action := .simpleFile "t4" "pat1" [("active", "1")]

def actC4b : Action := .simpleFile "t4" "pat2" [("active", "0")]

def cfgC4 : Config := { action := [actC4a, actC4b], trigger := [] }

def worldC4 : World :=
  { files := fun _ => .ok "",
    glob := fun p => if p = "pat1" then .ok ["/out1"] else .ok ["/out2"],
    writeOk := fun p => p != "/out1" }

def hW5 : TriggerHandler := { trigger := trigF, last_access := some 10, cached_val := none }

def hW2 : TriggerHandler := { trigger := trigF, last_access := none, cached_val := none }

def hW3 : TriggerHandler := { trigger := trigF, last_access := none, cached_val := none }

def hW7 : TriggerHandler := { trigger := trigF, last_access := none, cached_val := none }

def actC6a : Action := .simpleFile "t6" "pat6a" []

def actC6b : Action := .simpleFile "t6" "pat6b" [("v", "out")]

def cfgC6 : Config := { action := [actC6a, actC6b], trigger := [] }

def worldC6 : World :=
  { files := fun _ => .ok "", glob := fun _ => .ok ["/c6"], writeOk := fun _ => true }

def trigW8 : Trigger := { name := "t8", file := "/f8", map := [("x", "y")] }

def cfgW8 : Config := { action := [], trigger := [trigW8] }

def worldW8 : World :=
  { files := fun _ => .ok "x", glob := fun _ => .ok [], writeOk := fun _ => true }

/-! ### The claims -/

/-- Claim C1: the spec says a poll I/O error while handling one delivered
event must be reported, abort only that event, and never terminate the
process. The code instead applies `?` to `poll_and_name` inside the event
loop, so the error leaves `main` and the process terminates. Evaluated
here: an event for registered watch 1 whose trigger file fails to read
makes the loop body return the error (which `main` propagates). -/
theorem poll_error_aborts_event_loop :
    processEvent cfgC1 worldC1 false 100 [(1, hC1)] 1 = .error "read failed" := rfl

/-- Claim C2 counterexample: with unmapped content "off" on disk and
"active" cached, the freshly resolved value (`none`) differs from the
cached value, yet the poll returns no new value — a present-to-absent
transition does not trigger dispatch. -/
theorem poll_present_to_absent_cex :
    trigC2.map.lookup (strTrim "off") ≠ hC2.cached_val ∧
    hC2.poll_and_name 100 fsC2 =
      .ok (none, "t2",
        { trigger := trigC2, last_access := some 100, cached_val := none },
        ["Warning: No value map for off in trigger t2"]) :=
  ⟨by decide, rfl⟩

/-- Claim C2 (amended): for a poll that passes the debounce check and
reads successfully, a new value is returned (dispatch fires) iff the
freshly resolved value is present and differs from the cache; when the
resolved value is absent and the cache held a value, the cache is updated
to `none` but no new value is returned, so no dispatch fires. -/
theorem poll_dispatch_iff_present_change (h : TriggerHandler) (now : Nat)
    (fs : Path → Except String String) (raw : String)
    (hd : DebouncePasses h now) (hr : fs h.trigger.file = .ok raw) :
    (∀ v, (∃ h1 warns, h.poll_and_name now fs = .ok (some v, h.trigger.name, h1, warns)) ↔
      (h.trigger.map.lookup (strTrim raw) = some v ∧
        h.trigger.map.lookup (strTrim raw) ≠ h.cached_val)) ∧
    (h.trigger.map.lookup (strTrim raw) = none →
      ∃ h1 warns, h.poll_and_name now fs = .ok (none, h.trigger.name, h1, warns) ∧
        h1.cached_val = none) := by
  rw [poll_of_passes h now fs hd, readAndResolve_ok h now fs raw hr]
  constructor
  · intro v
    constructor
    · rintro ⟨h1, warns, heq⟩
      injection heq with h3
      simp only [Prod.mk.injEq] at h3
      obtain ⟨hval, -, -, -⟩ := h3
      by_cases hc : h.trigger.map.lookup (strTrim raw) = h.cached_val
      · rw [if_pos hc] at hval
        exact Option.noConfusion hval
      · rw [if_neg hc] at hval
        exact ⟨hval, hc⟩
    · rintro ⟨hv, hc⟩
      exact ⟨_, _, by rw [if_neg hc, hv]⟩
  · intro hm
    refine ⟨{ h with last_access := some now, cached_val := none },
      ["Warning: No value map for " ++ raw ++ " in trigger " ++ h.trigger.name], ?_, rfl⟩
    rw [hm, ite_self]
    rfl

/-- Claim C2 witness: a fresh handler (empty cache) reading mapped content
"on" returns the new value "active". -/
theorem poll_dispatch_iff_present_change_witness :
    ∃ h1 warns, hW2.poll_and_name 5 fsOn = .ok (some "active", hW2.trigger.name, h1, warns) :=
  ((poll_dispatch_iff_present_change hW2 5 fsOn "on"
      (fun _ ht => nomatch ht) rfl).1 "active").2 ⟨by decide, by decide⟩

/-- Claim C3 counterexample: a mapping miss does not leave the cache
unchanged — with "one" cached, polling unmapped content "2" clears the
cache to `none`. -/
theorem poll_miss_clears_cache_cex :
    hC3.cached_val = some "one" ∧
    hC3.poll_and_name 200 fsC3 =
      .ok (none, "t3",
        { trigger := trigC3, last_access := some 200, cached_val := none },
        ["Warning: No value map for 2 in trigger t3"]) ∧
    (none : Option String) ≠ some "one" :=
  ⟨rfl, rfl, by decide⟩

/-- Claim C3 (amended): a poll whose trimmed content has no entry in the
trigger's value map does not fail: it returns no new value, reports the
miss as a warning, advances the debounce clock, and the cached value
becomes absent — unchanged when it was already absent, but cleared when a
present value was cached before the miss. -/
theorem poll_mapping_miss_behavior (h : TriggerHandler) (now : Nat)
    (fs : Path → Except String String) (raw : String)
    (hd : DebouncePasses h now) (hr : fs h.trigger.file = .ok raw)
    (hm : h.trigger.map.lookup (strTrim raw) = none) :
    h.poll_and_name now fs =
      .ok (none, h.trigger.name,
        { h with last_access := some now, cached_val := none },
        ["Warning: No value map for " ++ raw ++ " in trigger " ++ h.trigger.name]) := by
  rw [poll_of_passes h now fs hd, readAndResolve_ok h now fs raw hr, hm, ite_self]
  rfl

/-- Claim C3 witness: a fresh handler polling unmapped content "junk". -/
theorem poll_mapping_miss_behavior_witness :
    hW3.poll_and_name 4 fsJunk =
      .ok (none, "tf", { trigger := trigF, last_access := some 4, cached_val := none },
        ["Warning: No value map for junk in trigger tf"]) :=
  poll_mapping_miss_behavior hW3 4 fsJunk "junk" (fun _ ht => nomatch ht) rfl (by decide)

/-- Claim C4 counterexample: two actions bound to trigger "t4"; the first
action's write fails. The whole dispatch returns the error with no writes
at all — the second action, which on its own would write "/out2", never
runs. -/
theorem dispatch_write_failure_aborts_cex :
    Config.on_trigger cfgC4 worldC4 false "t4" "active" =
      (.error "Failed to write to simple-file on trigger", [], []) ∧
    actC4b.on_trigger worldC4 false "t4" "active" = (.ok (), [("/out2", "0")], []) :=
  ⟨rfl, rfl⟩

/-- Claim C4 (amended): a write failure inside one Action Definition is
propagated by the `?` in `Config::on_trigger`, so it aborts the whole
dispatch for that event: the error is surfaced to the caller and none of
the Action Definitions after the failing one are run. -/
theorem dispatch_write_failure_aborts (c : Config) (w : World) (verbose : Bool)
    (trig value : String) (a : Action) (rest : List Action) (e : String)
    (ws : List (Path × String)) (ls : List String)
    (hc : c.action = a :: rest)
    (ha : a.on_trigger w verbose trig value = (.error e, ws, ls)) :
    c.on_trigger w verbose trig value = (.error e, ws, ls) := by
  unfold Config.on_trigger
  rw [hc]
  unfold runActions
  rw [ha]

/-- Claim C4 witness: the failing two-action configuration, dispatched. -/
theorem dispatch_write_failure_aborts_witness :
    Config.on_trigger cfgC4 worldC4 false "t4" "active" =
      (.error "Failed to write to simple-file on trigger", [], []) :=
  dispatch_write_failure_aborts cfgC4 worldC4 false "t4" "active" actC4a [actC4b]
    "Failed to write to simple-file on trigger" [] [] rfl rfl

/-- Claim C5: with a recorded previous read, a poll strictly less than
50 ms later returns no new value, leaves the handler unchanged, and is
independent of the filesystem (the file is not read); a poll at or after
the 50 ms window that resolves to a new present value reports that
value. -/
theorem poll_debounce_spec (h : TriggerHandler) (now t : Nat)
    (hl : h.last_access = some t) :
    (now - t < debounceWindow →
      ∀ fs : Path → Except String String,
        h.poll_and_name now fs = .ok (none, h.trigger.name, h, [])) ∧
    (debounceWindow ≤ now - t →
      ∀ (fs : Path → Except String String) (raw : String) (v : String),
        fs h.trigger.file = .ok raw →
        h.trigger.map.lookup (strTrim raw) = some v →
        some v ≠ h.cached_val →
        h.poll_and_name now fs =
          .ok (some v, h.trigger.name,
            { h with last_access := some now, cached_val := some v }, [])) := by
  constructor
  · intro hlt fs
    exact poll_of_suppressed h now t fs hl hlt
  · intro hge fs raw v hr hv hne
    have hd : DebouncePasses h now := by
      intro t' ht'
      rw [hl] at ht'
      injection ht' with he
      subst he
      exact hge
    rw [poll_of_passes h now fs hd, readAndResolve_ok h now fs raw hr, hv, if_neg hne]
    rfl

/-- Claim C5 witness: the same handler suppressed at 10 ms elapsed and
reporting a change at 90 ms elapsed. -/
theorem poll_debounce_spec_witness :
    hW5.poll_and_name 20 fsOn = .ok (none, "tf", hW5, []) ∧
    hW5.poll_and_name 100 fsOn =
      .ok (some "active", "tf",
        { trigger := trigF, last_access := some 100, cached_val := some "active" }, []) := by
  constructor
  · exact (poll_debounce_spec hW5 20 10 rfl).1 (by decide) fsOn
  · exact (poll_debounce_spec hW5 100 10 rfl).2 (by decide) fsOn "on" "active" rfl
      (by decide) (by decide)

/-- Claim C6: when an action's bound trigger name matches but the value is
absent from the action's own values map, the miss is reported (under
verbose), no write occurs, the action itself succeeds, and dispatch
continues: the remaining actions run exactly as they would alone. -/
theorem action_value_miss_continues (w : World) (verbose : Bool)
    (trig file : String) (values : List (String × String)) (value : String)
    (rest : List Action) (c : Config)
    (hm : values.lookup value = none)
    (hc : c.action = Action.simpleFile trig file values :: rest) :
    (Action.simpleFile trig file values).on_trigger w verbose trig value =
      (.ok (), [], if verbose then ["Didn't find value for key " ++ value] else []) ∧
    c.on_trigger w verbose trig value =
      ((runActions w verbose trig value rest).1,
        (runActions w verbose trig value rest).2.1,
        (if verbose then ["Didn't find value for key " ++ value] else []) ++
          (runActions w verbose trig value rest).2.2) := by
  have h1 : (Action.simpleFile trig file values).on_trigger w verbose trig value =
      (.ok (), [], if verbose then ["Didn't find value for key " ++ value] else []) := by
    simp [Action.on_trigger, hm]
  refine ⟨h1, ?_⟩
  unfold Config.on_trigger
  rw [hc]
  simp only [runActions]
  rw [h1]
  rcases h2 : runActions w verbose trig value rest with ⟨r, ws', ls'⟩
  rfl

/-- Claim C6 witness: two actions on trigger "t6"; the first has an empty
values map (so value "v" misses), the second still executes and its write
appears in the dispatch result. -/
theorem action_value_miss_continues_witness :
    cfgC6.on_trigger worldC6 true "t6" "v" =
      ((runActions worldC6 true "t6" "v" [actC6b]).1,
        (runActions worldC6 true "t6" "v" [actC6b]).2.1,
        ["Didn't find value for key v"] ++ (runActions worldC6 true "t6" "v" [actC6b]).2.2) ∧
    runActions worldC6 true "t6" "v" [actC6b] = (.ok (), [("/c6", "out")], []) :=
  ⟨(action_value_miss_continues worldC6 true "t6" "pat6a" [] "v" [actC6b] cfgC6 rfl rfl).2,
    rfl⟩

/-- Claim C7: every poll that passes the debounce check and reads the file
records the current time as the new debounce reference point, whether or
not the trimmed content has an entry in the value map. -/
theorem poll_updates_last_access (h : TriggerHandler) (now : Nat)
    (fs : Path → Except String String) (raw : String)
    (hd : DebouncePasses h now) (hr : fs h.trigger.file = .ok raw) :
    ∃ ret h1 warns, h.poll_and_name now fs = .ok (ret, h.trigger.name, h1, warns) ∧
      h1.last_access = some now := by
  rw [poll_of_passes h now fs hd, readAndResolve_ok h now fs raw hr]
  exact ⟨_, _, _, rfl, rfl⟩

/-- Claim C7 witness: a fresh handler polled at time 3. -/
theorem poll_updates_last_access_witness :
    ∃ ret h1 warns, hW7.poll_and_name 3 fsOn = .ok (ret, "tf", h1, warns) ∧
      h1.last_access = some 3 :=
  poll_updates_last_access hW7 3 fsOn "on" (fun _ ht => nomatch ht) rfl

/-- Claim C8: `TriggerHandler::new` registers read-access interest
(`IN_ACCESS`, not `IN_MODIFY`) on the trigger's file and returns the
watch descriptor, and after the startup loop every registry entry's
descriptor is installed with read-access interest on that handler's
trigger file. -/
theorem setup_watches_in_access (cfg : Config) (w : World) (verbose : Bool)
    (now : Nat) (trigs : List Trigger) (ino ino' : Inotify) (reg : Registry)
    (ws : List (Path × String)) (ls : List String)
    (hs : setupTriggers cfg w verbose now trigs ino = .ok (ino', reg, ws, ls)) :
    (∀ (trigger : Trigger) (ino0 : Inotify),
      ((TriggerHandler.new trigger ino0).1).watches =
        ((TriggerHandler.new trigger ino0).2.2, trigger.file, AddWatchFlags.IN_ACCESS)
          :: ino0.watches) ∧
    (∀ wd th, (wd, th) ∈ reg →
      (wd, th.trigger.file, AddWatchFlags.IN_ACCESS) ∈ ino'.watches) :=
  ⟨fun _ _ => rfl,
    (setupTriggers_reg_access cfg w verbose now trigs ino ino' reg ws ls hs).2⟩

/-- Claim C8 witness: a one-trigger startup; watch 0 on "/f8" with
read-access interest is installed and owns the registry's handler. -/
theorem setup_watches_in_access_witness :
    (0, "/f8", AddWatchFlags.IN_ACCESS) ∈
      (Inotify.mk 1 [(0, "/f8", AddWatchFlags.IN_ACCESS)]).watches :=
  (setup_watches_in_access cfgW8 worldW8 false 0 [trigW8]
      { nextWd := 0, watches := [] }
      (Inotify.mk 1 [(0, "/f8", AddWatchFlags.IN_ACCESS)])
      [(0, { trigger := trigW8, last_access := some 0, cached_val := some "y" })]
      [] [] rfl).2
    0 { trigger := trigW8, last_access := some 0, cached_val := some "y" }
    (List.mem_singleton.mpr rfl)

/-- Claim C9: an event whose watch descriptor is not in the registry is
silently ignored: the registry is unchanged, no handler is polled, no
write happens, nothing is logged and no error is raised. -/
theorem unknown_watch_ignored (cfg : Config) (w : World) (verbose : Bool)
    (now : Nat) (reg : Registry) (wd : Nat)
    (hn : reg.lookup wd = none) :
    processEvent cfg w verbose now reg wd = .ok (reg, [], []) := by
  unfold processEvent
  rw [hn]

/-- Claim C9 witness: an event for descriptor 2 when only descriptor 1 is
registered. -/
theorem unknown_watch_ignored_witness :
    processEvent cfgC1 worldC1 false 0 [(1, hC1)] 2 = .ok ([(1, hC1)], [], []) :=
  unknown_watch_ignored cfgC1 worldC1 false 0 [(1, hC1)] 2 (by decide)

/-- Claim C10: a handler returned by `TriggerHandler::new` has no recorded
previous read, so its first poll is never suppressed by the debounce
check: at any time it proceeds to read the trigger's file — in particular
a failing read surfaces as the poll's error. -/
theorem first_poll_not_debounced (trigger : Trigger) (ino : Inotify) :
    ((TriggerHandler.new trigger ino).2.1).last_access = none ∧
    (∀ (now : Nat) (fs : Path → Except String String),
      ((TriggerHandler.new trigger ino).2.1).poll_and_name now fs =
        ((TriggerHandler.new trigger ino).2.1).readAndResolve now fs) ∧
    (∀ (now : Nat) (fs : Path → Except String String) (e : String),
      fs trigger.file = .error e →
      ((TriggerHandler.new trigger ino).2.1).poll_and_name now fs = .error e) :=
  ⟨rfl, fun _ _ => rfl, fun now fs e hr => readAndResolve_error _ now fs e hr⟩

/-- Claim C10 witness: the first poll of a fresh handler at time 0 with an
unreadable file reads (and fails) despite the debounce window. -/
theorem first_poll_not_debounced_witness :
    ((TriggerHandler.new trigF inoF).2.1).poll_and_name 0 (fun _ => .error "boom") =
      .error "boom" :=
  (first_poll_not_debounced trigF inoF).2.2 0 (fun _ => .error "boom") "boom" rfl

end Powered
